import Mathlib

/-!
Verification of the game-catalog cache subsystem: a shallow embedding of the
catalog service's cache helpers, read path (list / get / search) and write
path (create / update / delete), translated from the Express handlers of the
catalog service, together with theorems settling the specification claims.

Modelling conventions:
- JavaScript strings are Lean `String`, JSON numbers are `Rat` (NaN is not
  representable in a JSON body and is not modelled), and absent object
  fields are `none` (JSON `null` and `undefined` are collapsed to `none`).
- The relational store is a `List Game` kept in `created_at DESC` order (the
  only order the handlers ever query), the Redis cache is an association
  list from key to deserialized cached response (JSON round-tripping is the
  identity), and the Solr index is a list of documents keyed by id.
- Backend failures are injected through an `Env` record: `storeFail` makes
  every Postgres query throw, `cacheFail` makes every Redis call throw,
  `solrFail` makes every Solr update call throw, and `solrSelect` is the
  oracle for Solr search queries (`none` models a thrown request).
- Each operation returns its HTTP-observable result, the successor state,
  and the list of backend calls it attempted, in order.  TTL expiry is
  time-driven and is outside this state model.
-/

namespace GameStore

/-- A catalog entity: a row of the `games` table. -/
structure Game where
  id : Nat
  title : String
  genre : String
  platform : String
  price : Rat
  rating : Option Rat
  releaseDate : Option String
  descr : Option String
deriving DecidableEq, Repr

/-- A deserialized cached response: a list page, a search page, or a single
entity (the last is never produced by the code; it exists so the spec's
read-through single-entity algorithm can be stated and compared). -/
inductive Resp where
  | listP (data : List Game) (limit offset total : Nat)
  | searchP (data : List Game) (limit offset total : Nat)
  | entP (g : Game)
deriving DecidableEq, Repr

/-- A Solr document for one game. -/
structure SolrDoc where
  id : Nat
  title : String
  genre : String
  platform : String
  price : Rat
  rating : Rat
  descr : String
deriving DecidableEq, Repr

/-- A Solr `select` request as built by the search handler. -/
structure SolrReq where
  q : String
  sortP : String
  fq : List String
  rows : String
  start : String
deriving DecidableEq, Repr

/-- A Solr `select` response. -/
structure SolrResp where
  docs : List SolrDoc
  numFound : Nat
deriving DecidableEq, Repr

/-- How a Postgres query fails: a unique violation (error code 23505) or any
other error. -/
inductive StoreErr where
  | uniqueViolation
  | other
deriving DecidableEq, Repr

/-- The state of the three backends. -/
structure Sys where
  store : List Game
  cache : List (String × Resp)
  solr : List SolrDoc
deriving Repr

/-- Failure injection and the Solr query oracle for one request. -/
structure Env where
  storeFail : Option StoreErr
  cacheFail : Bool
  solrFail : Bool
  solrSelect : SolrReq → Option SolrResp

/-- A backend call attempted by a handler, in program order. -/
inductive Eff where
  | dbRead
  | dbWrite
  | cacheGet (key : String)
  | cacheSet (key : String)
  | cacheInval (pats : List String)
  | solrAdd (id : Nat)
  | solrDel (id : Nat)
deriving DecidableEq, Repr

/-- JavaScript truthiness of an optional string: `undefined`, `null` and the
empty string are falsy. -/
def truthyS (x : Option String) : Bool :=
  match x with
  | none => false
  | some s => !(s == "")

/-- JavaScript falsiness of an optional string. -/
def falsyS (x : Option String) : Bool := !(truthyS x)

/-- JavaScript truthiness of an optional number: `undefined`, `null` and `0`
are falsy. -/
def truthyN (x : Option Rat) : Bool :=
  match x with
  | none => false
  | some r => !(r == 0)

/-- JavaScript falsiness of an optional number. -/
def falsyN (x : Option Rat) : Bool := !(truthyN x)

/-- JavaScript `x || d` on an optional string. -/
def jsOrS (x : Option String) (d : String) : String :=
  match x with
  | none => d
  | some s => if s == "" then d else s

/-- JavaScript `x || null` on an optional string. -/
def jsOrNullS (x : Option String) : Option String :=
  match x with
  | none => none
  | some s => if s == "" then none else some s

/-- JavaScript `x || null` on an optional number. -/
def jsOrNullN (x : Option Rat) : Option Rat :=
  match x with
  | none => none
  | some r => if r == 0 then none else some r

/-- Plain lookup in the cache association list. -/
def cacheLookup (cache : List (String × Resp)) (key : String) : Option Resp :=
  (cache.find? (fun kv => kv.1 == key)).map (fun kv => kv.2)

/-- `getCache`: returns the deserialized cached value, or `null` on a miss or
on any Redis error (the error is caught and swallowed). -/
def getCache (env : Env) (key : String) (cache : List (String × Resp)) : Option Resp :=
  if env.cacheFail then none else cacheLookup cache key

/-- `setEx` replaces the entry for the key wholesale. -/
def cacheInsert (cache : List (String × Resp)) (key : String) (v : Resp) :
    List (String × Resp) :=
  (key, v) :: cache.filter (fun kv => !(kv.1 == key))

/-- `setCache`: best-effort `setEx`; Redis errors are caught and swallowed. -/
def setCache (env : Env) (key : String) (v : Resp) (cache : List (String × Resp)) :
    List (String × Resp) :=
  if env.cacheFail then cache else cacheInsert cache key v

/-- Redis glob matching restricted to the pattern shapes the service uses:
a trailing `*` matches any suffix, and any other pattern matches only
itself. -/
def matchesPat (pat key : String) : Bool :=
  if pat.data.getLast? == some '*' then List.isPrefixOf pat.data.dropLast key.data
  else pat == key

/-- `invalidateCache`: for each pattern, `keys(pattern)` then `del`; any
Redis error is caught and swallowed (and aborts the remaining patterns). -/
def invalidateCache (env : Env) (pats : List String) (cache : List (String × Resp)) :
    List (String × Resp) :=
  if env.cacheFail then cache
  else pats.foldl (fun c pat => c.filter (fun kv => !(matchesPat pat kv.1))) cache

/-- Result of `GET /api/v1/games/:id`. -/
inductive GetRes where
  | ok (g : Game)
  | notFound
  | serverError
deriving DecidableEq, Repr

/-- The list cache key `games:list:{limit}:{offset}`. -/
def listKey (limit offset : Nat) : String :=
  s!"games:list:{limit}:{offset}"

/-- The two Postgres round-trips of the list handler: exact row count plus
one page in `created_at DESC` order. -/
def listFromStore (store : List Game) (limit offset : Nat) : Resp :=
  .listP ((store.drop offset).take limit) limit offset store.length

/-- `GET /api/v1/games`: cache-first list read; on a miss, count and page
queries against Postgres, then a best-effort 60-second `setCache`.  A
Postgres error yields a 500 (`none`). -/
def listEntities (env : Env) (limit offset : Nat) (sys : Sys) :
    Option Resp × Sys × List Eff :=
  let key := listKey limit offset
  match getCache env key sys.cache with
  | some r => (some r, sys, [.cacheGet key])
  | none =>
    match env.storeFail with
    | some _ => (none, sys, [.cacheGet key, .dbRead])
    | none =>
      let r := listFromStore sys.store limit offset
      (some r, { sys with cache := setCache env key r sys.cache },
       [.cacheGet key, .dbRead, .dbRead, .cacheSet key])

/-- `GET /api/v1/games/:id`: a single Postgres lookup; 404 when no row
matches.  The handler makes no cache call of any kind. -/
def getEntity (env : Env) (id : Nat) (sys : Sys) : GetRes × Sys × List Eff :=
  match env.storeFail with
  | some _ => (.serverError, sys, [.dbRead])
  | none =>
    match sys.store.find? (fun g => g.id == id) with
    | some g => (.ok g, sys, [.dbRead])
    | none => (.notFound, sys, [.dbRead])

/-- Modelled from the spec (§4.2, §4.1): the read-through single-entity
lookup the spec describes — key `entity:{id}`, Cache Layer `get` first,
return the deserialized value on a hit, on a miss query the Primary Store,
`set` the result and return it.  Stated only for comparison with
`getEntity`. -/
def getEntityReadThrough (env : Env) (id : Nat) (sys : Sys) :
    GetRes × Sys × List Eff :=
  let key := s!"entity:{id}"
  match getCache env key sys.cache with
  | some (.entP g) => (.ok g, sys, [.cacheGet key])
  | _ =>
    match env.storeFail with
    | some _ => (.serverError, sys, [.cacheGet key, .dbRead])
    | none =>
      match sys.store.find? (fun g => g.id == id) with
      | some g =>
        (.ok g, { sys with cache := setCache env key (.entP g) sys.cache },
         [.cacheGet key, .dbRead, .cacheSet key])
      | none => (.notFound, sys, [.cacheGet key, .dbRead])

/-- The query-string shape of `GET /api/v1/games/search`: every parameter is
optional and arrives as a raw string. -/
structure SearchQ where
  q : Option String
  genre : Option String
  platform : Option String
  priceMin : Option String
  priceMax : Option String
  ratingMin : Option String
  sort : Option String
  limit : Option String
  offset : Option String
deriving DecidableEq, Repr

/-- The search cache key
`games:search:{q}:{genre||all}:{platform||all}:{priceMin||0}:{priceMax||inf}:{ratingMin||0}:{sort||default}:{limit}:{offset}`.
`q`, `limit` and `offset` take destructuring defaults `*`, `10`, `0` (applied
only when absent), the rest default through `||`. -/
def searchCacheKey (sq : SearchQ) : String :=
  "games:search:" ++ sq.q.getD ("*") ++ ":" ++ jsOrS sq.genre ("all") ++ ":" ++
    jsOrS sq.platform ("all") ++ ":" ++ jsOrS sq.priceMin ("0") ++ ":" ++
    jsOrS sq.priceMax ("inf") ++ ":" ++ jsOrS sq.ratingMin ("0") ++ ":" ++
    jsOrS sq.sort ("default") ++ ":" ++ sq.limit.getD ("10") ++ ":" ++
    sq.offset.getD ("0")

/-- The sort parameter sent to Solr: `rating desc` for a wildcard or
sub-3-character query, `score desc` (relevance) otherwise, overridden by the
four recognized explicit sort values. -/
def searchSortParam (q : String) (sort : Option String) : String :=
  let base := if q == "*" || q.length < 3 then "rating desc" else "score desc"
  if sort == some ("price_asc") then "price asc"
  else if sort == some ("price_desc") then "price desc"
  else if sort == some ("rating_desc") then "rating desc"
  else if sort == some ("title_asc") then "title asc"
  else base

/-- One optional Solr filter clause: emitted only when the parameter is
present and nonempty. -/
def optFilter (x : Option String) (mk : String → String) : List String :=
  match x with
  | none => []
  | some s => if s == "" then [] else [mk s]

/-- The `fq` filter clauses, combined with logical AND by Solr. -/
def searchFilters (sq : SearchQ) : List String :=
  optFilter sq.genre (fun s => "genre:\"" ++ s ++ "\"") ++
  optFilter sq.platform (fun s => "platform:\"" ++ s ++ "\"") ++
  optFilter sq.priceMin (fun s => "price:[" ++ s ++ " TO *]") ++
  optFilter sq.priceMax (fun s => "price:[* TO " ++ s ++ "]") ++
  optFilter sq.ratingMin (fun s => "rating:[" ++ s ++ " TO *]")

/-- The Solr `select` request the search handler builds. -/
def buildSolrReq (sq : SearchQ) : SolrReq :=
  let qv := sq.q.getD ("*")
  { q := if qv == "*" then "*:*" else qv ++ "*"
    sortP := searchSortParam qv sq.sort
    fq := searchFilters sq
    rows := sq.limit.getD ("10")
    start := sq.offset.getD ("0") }

/-- `parseInt` restricted to the well-formed inputs the handlers receive. -/
def parseNat (s : String) : Nat := s.toNat?.getD 0

/-- Mapping of one Solr document to a response game object. -/
def docToGame (d : SolrDoc) : Game :=
  { id := d.id, title := d.title, genre := d.genre, platform := d.platform,
    price := d.price, rating := some d.rating, releaseDate := none,
    descr := some d.descr }

/-- `GET /api/v1/games/search`: cache-first; on a miss the built Solr request
is issued, the response page is shaped, cached best-effort and returned; a
thrown Solr request yields a 500 (`none`). -/
def searchEntities (env : Env) (sq : SearchQ) (sys : Sys) :
    Option Resp × Sys × List Eff :=
  let key := searchCacheKey sq
  match getCache env key sys.cache with
  | some r => (some r, sys, [.cacheGet key])
  | none =>
    match env.solrSelect (buildSolrReq sq) with
    | none => (none, sys, [.cacheGet key])
    | some resp =>
      let r := Resp.searchP (resp.docs.map docToGame)
        (parseNat (sq.limit.getD ("10"))) (parseNat (sq.offset.getD ("0")))
        resp.numFound
      (some r, { sys with cache := setCache env key r sys.cache },
       [.cacheGet key, .cacheSet key])

/-- Modelled from the spec (§8 degraded-cache correctness): the search result
as computed from the Search Index alone, with no cache involved. -/
def searchFromIndex (ssel : SolrReq → Option SolrResp) (sq : SearchQ) : Option Resp :=
  (ssel (buildSolrReq sq)).map (fun resp =>
    Resp.searchP (resp.docs.map docToGame)
      (parseNat (sq.limit.getD ("10"))) (parseNat (sq.offset.getD ("0")))
      resp.numFound)

/-- Result of `POST /api/v1/games`. -/
inductive CreateRes where
  | created (g : Game)
  | validationError (msg : String)
  | conflict
  | serverError
deriving DecidableEq, Repr

/-- Result of `PUT /api/v1/games/:id`.  `noFields` is the 400 returned when
the body provides no updatable field. -/
inductive UpdateRes where
  | ok (g : Game)
  | notFound
  | noFields
  | conflict
  | serverError
deriving DecidableEq, Repr

/-- Result of `DELETE /api/v1/games/:id`. -/
inductive DeleteRes where
  | deleted (id : Nat)
  | notFound
  | serverError
deriving DecidableEq, Repr

/-- Whether a create result is a 201. -/
def CreateRes.isCreated : CreateRes → Bool
  | .created _ => true
  | _ => false

/-- Whether a create result is a 400 validation error. -/
def CreateRes.isValidationError : CreateRes → Bool
  | .validationError _ => true
  | _ => false

/-- Whether an update result is a 200. -/
def UpdateRes.isOk : UpdateRes → Bool
  | .ok _ => true
  | _ => false

/-- Whether a delete result is a 200. -/
def DeleteRes.isDeleted : DeleteRes → Bool
  | .deleted _ => true
  | _ => false

/-- A JSON request body for create and update: every field optional. -/
structure GameBody where
  title : Option String
  genre : Option String
  platform : Option String
  price : Option Rat
  rating : Option Rat
  releaseDate : Option String
  descr : Option String
deriving DecidableEq, Repr

/-- The pattern set passed to `invalidateCache` by all three write
handlers. -/
def wInvalPats : List String := ["games:list:*", "games:search:*"]

/-- The create handler's fail-fast validation, in program order: the
truthiness check on the four required fields, then the negative-price check,
then the rating bounds check guarded by the rating's truthiness. -/
def createValidationError (b : GameBody) : Option String :=
  if falsyS b.title || falsyS b.genre || falsyN b.price || falsyS b.platform then
    some ("Title, genre, price, and platform are required")
  else if b.price.getD 0 < 0 then
    some ("Price must be a positive number")
  else if truthyN b.rating && (decide (b.rating.getD 0 < 0) || decide (10 < b.rating.getD 0)) then
    some ("Rating must be between 0 and 10")
  else none

/-- The `SERIAL` id the insert returns: one more than the largest id. -/
def nextId (store : List Game) : Nat :=
  (store.map (fun g => g.id)).foldr max 0 + 1

/-- The row the insert writes: `release_date || null`, `rating || null`,
`description || null`. -/
def mkNewGame (store : List Game) (b : GameBody) : Game :=
  { id := nextId store, title := b.title.getD (""), genre := b.genre.getD (""),
    platform := b.platform.getD (""), price := b.price.getD 0,
    rating := jsOrNullN b.rating, releaseDate := jsOrNullS b.releaseDate,
    descr := jsOrNullS b.descr }

/-- The Solr document built from a game row: `rating ? parseFloat : 0`,
`description || ''`. -/
def solrDocOfGame (g : Game) : SolrDoc :=
  { id := g.id, title := g.title, genre := g.genre, platform := g.platform,
    price := g.price, rating := g.rating.getD 0, descr := g.descr.getD ("") }

/-- `indexGameInSolr`: best-effort add (replaces the document with the same
id); a thrown request is caught and swallowed. -/
def indexGameInSolr (env : Env) (g : Game) (solr : List SolrDoc) : List SolrDoc :=
  if env.solrFail then solr
  else (solr.filter (fun d => !(d.id == g.id))) ++ [solrDocOfGame g]

/-- `deleteGameFromSolr`: best-effort delete by id; a thrown request is
caught and swallowed. -/
def deleteGameFromSolr (env : Env) (id : Nat) (solr : List SolrDoc) : List SolrDoc :=
  if env.solrFail then solr else solr.filter (fun d => !(d.id == id))

/-- `POST /api/v1/games`: fail-fast validation, insert into Postgres
(a failure propagates, a unique violation maps to 409), then fire-and-forget Solr
indexing and best-effort cache invalidation, then 201. -/
def createEntity (env : Env) (b : GameBody) (sys : Sys) :
    CreateRes × Sys × List Eff :=
  match createValidationError b with
  | some msg => (.validationError msg, sys, [])
  | none =>
    match env.storeFail with
    | some .uniqueViolation => (.conflict, sys, [.dbWrite])
    | some .other => (.serverError, sys, [.dbWrite])
    | none =>
      if sys.store.any (fun g => g.title == b.title.getD ("")) then
        (.conflict, sys, [.dbWrite])
      else
        let g := mkNewGame sys.store b
        (.created g,
         { store := g :: sys.store,
           cache := invalidateCache env wInvalPats sys.cache,
           solr := indexGameInSolr env g sys.solr },
         [.dbWrite, .solrAdd g.id, .cacheInval wInvalPats])

/-- Whether the update body provides at least one field (`!== undefined`). -/
def hasUpdateFields (b : GameBody) : Bool :=
  b.title.isSome || b.genre.isSome || b.price.isSome || b.platform.isSome ||
  b.releaseDate.isSome || b.rating.isSome || b.descr.isSome

/-- The row produced by the partial `UPDATE ... RETURNING *`: provided fields
replace the old values, absent fields keep them. -/
def applyUpdate (b : GameBody) (g : Game) : Game :=
  { g with
    title := b.title.getD g.title,
    genre := b.genre.getD g.genre,
    platform := b.platform.getD g.platform,
    price := b.price.getD g.price,
    rating := match b.rating with | some r => some r | none => g.rating,
    releaseDate := match b.releaseDate with | some s => some s | none => g.releaseDate,
    descr := match b.descr with | some s => some s | none => g.descr }

/-- Whether the `UPDATE` raises a unique violation: a provided title that
already belongs to a different row. -/
def updateTitleConflict (b : GameBody) (id : Nat) (store : List Game) : Bool :=
  match b.title with
  | some t => store.any (fun g => !(g.id == id) && g.title == t)
  | none => false

/-- `PUT /api/v1/games/:id`: existence check, 400 when no field is provided,
partial update (unique violation on a provided title maps to 409), then
fire-and-forget delete-then-reindex in Solr and best-effort cache
invalidation, then 200 with the updated row. -/
def updateEntity (env : Env) (id : Nat) (b : GameBody) (sys : Sys) :
    UpdateRes × Sys × List Eff :=
  match env.storeFail with
  | some .uniqueViolation => (.conflict, sys, [.dbRead])
  | some .other => (.serverError, sys, [.dbRead])
  | none =>
    match sys.store.find? (fun g => g.id == id) with
    | none => (.notFound, sys, [.dbRead])
    | some g0 =>
      if hasUpdateFields b then
        if updateTitleConflict b id sys.store then
          (.conflict, sys, [.dbRead, .dbWrite])
        else
          let g1 := applyUpdate b g0
          (.ok g1,
           { store := sys.store.map (fun g => if g.id == id then applyUpdate b g else g),
             cache := invalidateCache env wInvalPats sys.cache,
             solr := indexGameInSolr env g1 (deleteGameFromSolr env id sys.solr) },
           [.dbRead, .dbWrite, .solrDel id, .solrAdd g1.id, .cacheInval wInvalPats])
      else (.noFields, sys, [.dbRead])

/-- `DELETE /api/v1/games/:id`: existence check (404 on a missing row, with
no further backend call), Postgres delete, fire-and-forget Solr delete,
best-effort cache invalidation, then 200. -/
def deleteEntity (env : Env) (id : Nat) (sys : Sys) :
    DeleteRes × Sys × List Eff :=
  match env.storeFail with
  | some _ => (.serverError, sys, [.dbRead])
  | none =>
    match sys.store.find? (fun g => g.id == id) with
    | none => (.notFound, sys, [.dbRead])
    | some _ =>
      (.deleted id,
       { store := sys.store.filter (fun g => !(g.id == id)),
         cache := invalidateCache env wInvalPats sys.cache,
         solr := deleteGameFromSolr env id sys.solr },
       [.dbRead, .dbWrite, .solrDel id, .cacheInval wInvalPats])

/-- A request environment where every backend works. -/
def envOk : Env :=
  { storeFail := none, cacheFail := false, solrFail := false,
    solrSelect := fun _ => none }

/-- A request environment where Redis and Solr updates fail on every call. -/
def envDegraded : Env :=
  { storeFail := none, cacheFail := true, solrFail := true,
    solrSelect := fun _ => none }

/-- An empty backend state. -/
def sysEmpty : Sys := { store := [], cache := [], solr := [] }

/-- A stale pre-update copy of game 5, as a cached single-entity value. -/
def gameStale : Game :=
  { id := 5, title := "Stale Copy", genre := "RPG", platform := "PC",
    price := 10, rating := none, releaseDate := none, descr := none }

/-- The current row of game 5 in the Primary Store. -/
def gameFresh : Game :=
  { id := 5, title := "Fresh Row", genre := "RPG", platform := "PC",
    price := 20, rating := none, releaseDate := none, descr := none }

/-- A state whose cache holds a single-entity value under the spec's
`entity:{id}` key while the store holds a different row. -/
def sysHitC1 : Sys :=
  { store := [gameFresh], cache := [("entity:5", .entP gameStale)], solr := [] }

/-- The same store with an empty cache. -/
def sysMissC1 : Sys := { store := [gameFresh], cache := [], solr := [] }

/-- A state whose cache holds per-entity keys in both the spec's naming and
the service's key namespace, plus one list page. -/
def sysEntKeys : Sys :=
  { store := [gameFresh],
    cache := [("entity:5", .entP gameFresh), ("games:5", .entP gameFresh),
              ("games:list:10:0", .listP [gameFresh] 10 0 1)],
    solr := [] }

/-- An update body that only changes the price. -/
def bodyPrice20 : GameBody :=
  { title := none, genre := none, platform := none, price := some 20,
    rating := none, releaseDate := none, descr := none }

/-- A create body with every required field present and a zero price. -/
def bodyZeroPrice : GameBody :=
  { title := some ("Foo"), genre := some ("RPG"), platform := some ("PC"),
    price := some 0, rating := none, releaseDate := none, descr := none }

/-- A create body that passes validation. -/
def bodyValid : GameBody :=
  { title := some ("Foo"), genre := some ("RPG"), platform := some ("PC"),
    price := some 10, rating := none, releaseDate := none, descr := none }

/-- A create body that passes validation and carries a client rating of 0. -/
def bodyRatingZero : GameBody :=
  { title := some ("Foo"), genre := some ("RPG"), platform := some ("PC"),
    price := some 10, rating := some 0, releaseDate := none, descr := none }

/-- The search query shape with every parameter absent. -/
def sqAbsent : SearchQ :=
  { q := none, genre := none, platform := none, priceMin := none,
    priceMax := none, ratingMin := none, sort := none, limit := none,
    offset := none }

/-- The search query shape whose only parameter is `genre=all`. -/
def sqGenreAll : SearchQ :=
  { sqAbsent with genre := some ("all") }

/-- A fully canonical search query shape: colon-free values distinct from
every absent-value sentinel. -/
def sqCanon : SearchQ :=
  { q := some ("witcher"), genre := some ("RPG"), platform := some ("PC"),
    priceMin := some ("5"), priceMax := some ("60"), ratingMin := some ("7"),
    sort := some ("price_asc"), limit := some ("20"), offset := some ("40") }

/-- The cache left after purging the two write-invalidation patterns: only
keys outside both the `games:list:` and the `games:search:` families
survive. -/
def purged (cache : List (String × Resp)) : List (String × Resp) :=
  cache.filter (fun kv =>
    !(matchesPat ("games:list:*") kv.1 || matchesPat ("games:search:*") kv.1))

/-- The condition under which `createEntity` rejects a body with a 400,
written in interface language: a required field absent or empty, the price
absent, zero or negative, or a nonzero rating outside the 0..10 bounds. -/
def createRejects (b : GameBody) : Prop :=
  (b.title = none ∨ b.title = some ("")) ∨
  (b.genre = none ∨ b.genre = some ("")) ∨
  (b.platform = none ∨ b.platform = some ("")) ∨
  (b.price = none ∨ b.price = some 0) ∨
  (∃ p, b.price = some p ∧ p < 0) ∨
  (∃ r, b.rating = some r ∧ r ≠ 0 ∧ (r < 0 ∨ 10 < r))

/-- Whether a string contains no `:` separator. -/
def noColon (s : String) : Bool := s.data.all (fun c => c != ':')

/-- A canonical value for a destructuring-defaulted parameter (`q`, `limit`,
`offset`): absent, or a supplied value that is colon-free and differs from
the default it would collide with. -/
def goodD (x : Option String) (d : String) : Bool :=
  match x with
  | none => true
  | some s => !(s == d) && noColon s

/-- A canonical value for a `||`-defaulted parameter: absent, or a supplied
value that is nonempty, colon-free and differs from the sentinel it would
collide with. -/
def goodJ (x : Option String) (d : String) : Bool :=
  match x with
  | none => true
  | some s => !(s == "") && !(s == d) && noColon s

/-- A search query shape whose supplied values are colon-free and avoid the
absent-value sentinels of the cache key. -/
def searchKeyCanonical (sq : SearchQ) : Bool :=
  goodD sq.q ("*") && goodJ sq.genre ("all") && goodJ sq.platform ("all") &&
  goodJ sq.priceMin ("0") && goodJ sq.priceMax ("inf") &&
  goodJ sq.ratingMin ("0") && goodJ sq.sort ("default") &&
  goodD sq.limit ("10") && goodD sq.offset ("0")

/-! Helper lemmas. -/

theorem applyUpdate_id (b : GameBody) (g : Game) : (applyUpdate b g).id = g.id := rfl

theorem find?_map_applyUpdate (b : GameBody) (id : Nat) (l : List Game) :
    (l.map (fun g => if g.id == id then applyUpdate b g else g)).find?
      (fun g => g.id == id) =
    (l.find? (fun g => g.id == id)).map (fun g => applyUpdate b g) := by
  induction l with
  | nil => rfl
  | cons x xs ih =>
    cases hx : (x.id == id) with
    | true =>
      have hx2 : ((applyUpdate b x).id == id) = true := by
        rw [applyUpdate_id]; exact hx
      rw [List.map_cons, if_pos hx,
        List.find?_cons_of_pos (p := fun (g : Game) => g.id == id) _ hx2,
        List.find?_cons_of_pos (p := fun (g : Game) => g.id == id) _ hx]
      rfl
    | false =>
      have hx2 : ((applyUpdate b x).id == id) = false := by
        rw [applyUpdate_id]; exact hx
      rw [List.map_cons, if_neg (by simpa using hx),
        List.find?_cons_of_neg (p := fun (g : Game) => g.id == id) _ (by simpa using hx2),
        List.find?_cons_of_neg (p := fun (g : Game) => g.id == id) _ (by simpa using hx), ih]

theorem find?_filter_not_id (l : List Game) (id : Nat) :
    (l.filter (fun g => !(g.id == id))).find? (fun g => g.id == id) = none := by
  apply List.find?_eq_none.mpr
  intro g hg
  have h := (List.mem_filter.mp hg).2
  simp at h
  simp [h]

/-! C1. -/

/-- C1, counterexample: `getEntity` does not follow the spec's read-through
algorithm.  In a state whose cache holds a value under the deterministic key
`entity:5`, the handler ignores the hit and returns the Primary Store row
instead of the deserialized cached value (which the spec-modelled
read-through lookup would return), and with an empty cache a miss does not
populate the `entity:5` key. -/
theorem getEntity_not_read_through :
    (getEntity envOk 5 sysHitC1).1 = .ok gameFresh ∧
    cacheLookup sysHitC1.cache ("entity:5") = some (.entP gameStale) ∧
    GetRes.ok gameFresh ≠ GetRes.ok gameStale ∧
    (getEntityReadThrough envOk 5 sysHitC1).1 = .ok gameStale ∧
    (getEntity envOk 5 sysMissC1).2.1.cache = [] := by
  refine ⟨by decide, by decide, by decide, by decide, by decide⟩

/-- C1 (amended): `getEntity` performs no caching at all.  For every id and
every state it leaves the state (in particular the cache) unchanged, its
only backend call is the single Primary Store lookup, its result does not
depend on the cache contents, and it returns exactly the Primary Store
lookup result: the row on a hit, NotFound when no row matches, and a server
error when the store fails.  (Read-through caching in this service exists
only on the list and search paths.) -/
theorem getEntity_no_cache_access (env : Env) (id : Nat) (sys : Sys)
    (c : List (String × Resp)) :
    (getEntity env id sys).2.1 = sys ∧
    (getEntity env id sys).2.2 = [.dbRead] ∧
    (getEntity env id sys).1 = (getEntity env id { sys with cache := c }).1 ∧
    (getEntity env id sys).1 = (match env.storeFail with
      | some _ => .serverError
      | none =>
        match sys.store.find? (fun g => g.id == id) with
        | some g => .ok g
        | none => .notFound) := by
  cases h : env.storeFail with
  | some e => simp [getEntity, h]
  | none =>
    cases h2 : sys.store.find? (fun g => g.id == id) with
    | some g => simp [getEntity, h, h2]
    | none => simp [getEntity, h, h2]

/-! C6. -/

/-- C6: without an explicit sort parameter the sort sent to Solr is
`rating desc` exactly when the query text is the wildcard `*` or shorter
than 3 characters, and `score desc` (relevance) otherwise; each of the four
recognized explicit sort values overrides the default for every query text;
and the search handler sends exactly this sort parameter in its Solr
request. -/
theorem search_sort_fallback (q : String) (sq : SearchQ) :
    (searchSortParam q none =
      if q = "*" ∨ q.length < 3 then "rating desc" else "score desc") ∧
    searchSortParam q (some ("price_asc")) = "price asc" ∧
    searchSortParam q (some ("price_desc")) = "price desc" ∧
    searchSortParam q (some ("rating_desc")) = "rating desc" ∧
    searchSortParam q (some ("title_asc")) = "title asc" ∧
    (buildSolrReq sq).sortP = searchSortParam (sq.q.getD ("*")) sq.sort := by
  refine ⟨?_, ?_, ?_, ?_, ?_, rfl⟩
  · by_cases h1 : q = "*" <;> by_cases h2 : q.length < 3 <;>
      simp [searchSortParam, h1, h2]
  all_goals simp [searchSortParam]

/-! C9. -/

/-- C9: `deleteEntity` is idempotent at the interface.  When the id exists
and the Primary Store works, the first call returns success (after removing
the row), and the second call on the resulting state returns NotFound,
leaves the state entirely unchanged (no store mutation, no cache or index
side effect), performs only the existence check, and raises no error. -/
theorem delete_idempotent (env : Env) (id : Nat) (sys : Sys)
    (h0 : env.storeFail = none)
    (hex : (sys.store.find? (fun g => g.id == id)).isSome = true) :
    (deleteEntity env id sys).1 = .deleted id ∧
    (deleteEntity env id (deleteEntity env id sys).2.1).1 = .notFound ∧
    (deleteEntity env id (deleteEntity env id sys).2.1).2.1 =
      (deleteEntity env id sys).2.1 ∧
    (deleteEntity env id (deleteEntity env id sys).2.1).2.2 = [.dbRead] := by
  obtain ⟨g, hg⟩ := Option.isSome_iff_exists.mp hex
  have hfalse : ∀ (l : List Game), l.find? (fun _ => false) = none := fun l =>
    List.find?_eq_none.mpr (fun x _ => by simp)
  simp only [deleteEntity, h0, hg]
  simp [find?_filter_not_id, hfalse]

/-- C9, witness: a concrete run of the double delete. -/
theorem delete_idempotent_witness :
    (deleteEntity envOk 5 sysMissC1).1 = .deleted 5 ∧
    (deleteEntity envOk 5 (deleteEntity envOk 5 sysMissC1).2.1).1 = .notFound ∧
    (deleteEntity envOk 5 (deleteEntity envOk 5 sysMissC1).2.1).2.1 =
      (deleteEntity envOk 5 sysMissC1).2.1 :=
  have h := delete_idempotent envOk 5 sysMissC1 rfl (by decide)
  ⟨h.1, h.2.1, h.2.2.1⟩

/-! C10. -/

/-- C10: a client-supplied rating of exactly 0 is silently dropped.  For any
validated create whose body carries `rating = 0`, the insert succeeds and
the stored row has rating `null`, not 0; moreover a rating of 0 behaves
exactly like an absent rating throughout validation (the bounds check is
skipped, since `rating &&` guards it). -/
theorem create_rating_zero_dropped (env : Env) (b : GameBody) (sys : Sys)
    (hv : createValidationError b = none)
    (hfresh : sys.store.any (fun g => g.title == b.title.getD ("")) = false)
    (hs : env.storeFail = none)
    (hr : b.rating = some 0) :
    ((createEntity env b sys).1 = .created (mkNewGame sys.store b) ∧
      (mkNewGame sys.store b).rating = none ∧
      (createEntity env b sys).2.1.store = mkNewGame sys.store b :: sys.store) ∧
    (∀ b1 : GameBody, createValidationError { b1 with rating := some 0 } =
      createValidationError { b1 with rating := none }) := by
  refine ⟨⟨?_, ?_, ?_⟩, ?_⟩
  · simp [createEntity, hv, hs, hfresh]
  · simp [mkNewGame, hr, jsOrNullN]
  · simp [createEntity, hv, hs, hfresh]
  · intro b1
    simp [createValidationError, truthyN, falsyN, falsyS]

/-- C10, witness: the concrete create with rating 0 stores rating `null`. -/
theorem create_rating_zero_dropped_witness :
    (createEntity envOk bodyRatingZero sysEmpty).1 =
      .created (mkNewGame sysEmpty.store bodyRatingZero) ∧
    (mkNewGame sysEmpty.store bodyRatingZero).rating = none :=
  have h := create_rating_zero_dropped envOk bodyRatingZero sysEmpty
    (by decide) (by decide) rfl rfl
  ⟨h.1.1, h.1.2.1⟩

/-! C3. -/

/-- C3: cache coherence after update.  Whenever `updateEntity` returns
success with row `g`, a subsequent `getEntity` on the same id (with a
working Primary Store and before any other write) returns exactly `g`, and
`g` carries every field value the update body provided — never a stale
pre-update value.  (The handler reads the Primary Store directly, and the
update invalidated the list/search keys, so no cached copy is consulted.) -/
theorem update_then_get_fresh (env env1 : Env) (id : Nat) (b : GameBody)
    (sys : Sys) (g : Game)
    (h : (updateEntity env id b sys).1 = .ok g)
    (h1 : env1.storeFail = none) :
    (getEntity env1 id (updateEntity env id b sys).2.1).1 = .ok g ∧
    (∀ t, b.title = some t → g.title = t) ∧
    (∀ x, b.genre = some x → g.genre = x) ∧
    (∀ x, b.platform = some x → g.platform = x) ∧
    (∀ p, b.price = some p → g.price = p) ∧
    (∀ r, b.rating = some r → g.rating = some r) ∧
    (∀ x, b.releaseDate = some x → g.releaseDate = some x) ∧
    (∀ x, b.descr = some x → g.descr = some x) := by
  cases hsf : env.storeFail with
  | some e => cases e <;> simp [updateEntity, hsf] at h
  | none =>
    cases hfind : sys.store.find? (fun g => g.id == id) with
    | none => simp [updateEntity, hsf, hfind] at h
    | some g0 =>
      cases huf : hasUpdateFields b with
      | false => simp [updateEntity, hsf, hfind, huf] at h
      | true =>
        cases hconf : updateTitleConflict b id sys.store with
        | true => simp [updateEntity, hsf, hfind, huf, hconf] at h
        | false =>
          have hrun : (updateEntity env id b sys).1 = .ok (applyUpdate b g0) ∧
              (updateEntity env id b sys).2.1.store =
                sys.store.map (fun g => if g.id == id then applyUpdate b g else g) := by
            simp [updateEntity, hsf, hfind, huf, hconf]
          have hg : g = applyUpdate b g0 := by
            have h2 := h.symm.trans hrun.1
            exact (UpdateRes.ok.injEq _ _).mp h2
          have hfnd2 : ((updateEntity env id b sys).2.1.store.find?
              (fun g => g.id == id)) = some (applyUpdate b g0) := by
            rw [hrun.2, find?_map_applyUpdate, hfind]
            rfl
          refine ⟨?_, ?_, ?_, ?_, ?_, ?_, ?_, ?_⟩
          · simp [getEntity, h1, hfnd2, hg]
          all_goals
            intro v hv
            rw [hg]
            simp [applyUpdate, hv]

/-- C3, witness: a concrete update of game 5's price followed by a get. -/
theorem update_then_get_fresh_witness :
    (getEntity envOk 5 (updateEntity envOk 5 bodyPrice20 sysMissC1).2.1).1 =
      .ok { gameFresh with price := 20 } ∧
    ({ gameFresh with price := 20 } : Game).price = 20 :=
  have h := update_then_get_fresh envOk envOk 5 bodyPrice20 sysMissC1
    { gameFresh with price := 20 } (by decide) rfl
  ⟨h.1, h.2.2.2.2.1 20 rfl⟩

/-! C4. -/

theorem falsyS_iff (x : Option String) :
    falsyS x = true ↔ (x = none ∨ x = some ("")) := by
  cases x with
  | none => simp [falsyS, truthyS]
  | some s => simp [falsyS, truthyS]

theorem falsyN_iff (x : Option Rat) :
    falsyN x = true ↔ (x = none ∨ x = some 0) := by
  cases x with
  | none => simp [falsyN, truthyN]
  | some r => simp [falsyN, truthyN]

theorem truthyN_iff (x : Option Rat) :
    truthyN x = true ↔ ∃ r, x = some r ∧ r ≠ 0 := by
  cases x with
  | none => simp [truthyN]
  | some r => simp [truthyN]

theorem createValidationError_isSome_iff (b : GameBody) :
    (createValidationError b).isSome = true ↔ createRejects b := by
  unfold createValidationError
  split_ifs with h1 h2 h3
  · simp only [Option.isSome_some, true_iff]
    rcases Bool.or_eq_true .. |>.mp h1 with h | h
    · rcases Bool.or_eq_true .. |>.mp h with h | h
      · rcases Bool.or_eq_true .. |>.mp h with h | h
        · exact Or.inl ((falsyS_iff _).mp h)
        · exact Or.inr (Or.inl ((falsyS_iff _).mp h))
      · exact Or.inr (Or.inr (Or.inr (Or.inl ((falsyN_iff _).mp h))))
    · exact Or.inr (Or.inr (Or.inl ((falsyS_iff _).mp h)))
  · simp only [Option.isSome_some, true_iff]
    cases hp : b.price with
    | none => rw [hp] at h2; simp at h2
    | some p =>
      rw [hp] at h2
      simp only [Option.getD_some] at h2
      exact Or.inr (Or.inr (Or.inr (Or.inr (Or.inl ⟨p, hp, h2⟩))))
  · simp only [Option.isSome_some, true_iff]
    have h3l := (Bool.and_eq_true .. |>.mp h3).1
    have h3r := (Bool.and_eq_true .. |>.mp h3).2
    obtain ⟨r, hr, hr0⟩ := (truthyN_iff _).mp h3l
    rw [hr] at h3r
    simp only [Option.getD_some, Bool.or_eq_true, decide_eq_true_eq] at h3r
    exact Or.inr (Or.inr (Or.inr (Or.inr (Or.inr ⟨r, hr, hr0, h3r⟩))))
  · simp only [Option.isSome_none, Bool.false_eq_true, false_iff]
    intro hc
    rcases hc with h | h | h | h | ⟨p, hp, hplt⟩ | ⟨r, hr, hr0, hrb⟩
    · exact absurd (by
        apply Bool.or_eq_true .. |>.mpr
        exact Or.inl (Bool.or_eq_true .. |>.mpr (Or.inl (Bool.or_eq_true .. |>.mpr
          (Or.inl ((falsyS_iff _).mpr h)))))) h1
    · exact absurd (by
        apply Bool.or_eq_true .. |>.mpr
        exact Or.inl (Bool.or_eq_true .. |>.mpr (Or.inl (Bool.or_eq_true .. |>.mpr
          (Or.inr ((falsyS_iff _).mpr h)))))) h1
    · exact absurd (by
        apply Bool.or_eq_true .. |>.mpr
        exact Or.inr ((falsyS_iff _).mpr h)) h1
    · exact absurd (by
        apply Bool.or_eq_true .. |>.mpr
        exact Or.inl (Bool.or_eq_true .. |>.mpr (Or.inr ((falsyN_iff _).mpr h)))) h1
    · apply h2
      rw [hp]
      simpa using hplt
    · apply h3
      apply Bool.and_eq_true .. |>.mpr
      constructor
      · exact (truthyN_iff _).mpr ⟨r, hr, hr0⟩
      · rw [hr]
        simpa using hrb

/-- C4, counterexample: a create body with every required field present, a
non-negative (zero) price and no rating is rejected with a validation error
(the `!price` truthiness test treats the price 0 as a missing field) and the
Primary Store is never reached, contradicting the claim that such a request
passes validation. -/
theorem create_zero_price_rejected :
    (createEntity envOk bodyZeroPrice sysEmpty).1 =
      .validationError ("Title, genre, price, and platform are required") ∧
    (createEntity envOk bodyZeroPrice sysEmpty).2.2 = [] ∧
    bodyZeroPrice.title = some ("Foo") ∧
    bodyZeroPrice.genre = some ("RPG") ∧
    bodyZeroPrice.platform = some ("PC") ∧
    bodyZeroPrice.price = some 0 ∧
    ¬ (0 : Rat) < 0 ∧
    bodyZeroPrice.rating = none := by
  refine ⟨by decide, by decide, by decide, by decide, by decide, by decide,
    by decide, by decide⟩

/-- C4 (amended): `createEntity` fails fast.  For every environment, body
and state: the result is a validation error exactly when a required field
(title, genre, price, platform) is absent or falsy (empty string; the price
also when it is 0), the price is negative, or a nonzero rating lies outside
the 0..10 bounds; in that case no backend call at all is attempted, and in
every other case the Primary Store insert is attempted. -/
theorem create_validation_fail_fast (env : Env) (b : GameBody) (sys : Sys) :
    ((createEntity env b sys).1.isValidationError = true ↔ createRejects b) ∧
    ((createEntity env b sys).2.2 = [] ↔ createRejects b) ∧
    (Eff.dbWrite ∈ (createEntity env b sys).2.2 ↔ ¬ createRejects b) := by
  have hiff := createValidationError_isSome_iff b
  cases hvc : createValidationError b with
  | some m =>
    have hrej : createRejects b := hiff.mp (by rw [hvc]; rfl)
    simp [createEntity, hvc, CreateRes.isValidationError, hrej]
  | none =>
    have hrej : ¬ createRejects b := by
      intro hc
      have h2 := hiff.mpr hc
      rw [hvc] at h2
      simp at h2
    cases hsf : env.storeFail with
    | some e =>
      cases e <;> simp [createEntity, hvc, hsf, CreateRes.isValidationError, hrej]
    | none =>
      by_cases hany : sys.store.any (fun g => g.title == b.title.getD ("")) = true
      · simp [createEntity, hvc, hsf, hany, CreateRes.isValidationError, hrej]
      · have hany2 : sys.store.any (fun g => g.title == b.title.getD ("")) = false := by
          simpa using hany
        simp [createEntity, hvc, hsf, hany2, CreateRes.isValidationError, hrej]

/-! C7. -/

/-- C7: write failure semantics.  For a validated create body (with a fresh
title), an existing id and a nonempty, conflict-free update body: when the
Primary Store fails, each write operation returns an error (409 for a
unique violation on create/update, 500 otherwise) and attempts neither
cache invalidation nor Solr reconciliation; when the Primary Store works,
each write operation reports success — whatever the cache and Solr failure
flags are, so in particular even when invalidation and reconciliation
fail. -/
theorem write_failure_semantics (env : Env) (e : StoreErr) (b ub : GameBody)
    (id : Nat) (sys : Sys)
    (hv : createValidationError b = none)
    (hfresh : sys.store.any (fun g => g.title == b.title.getD ("")) = false)
    (hex : (sys.store.find? (fun g => g.id == id)).isSome = true)
    (huf : hasUpdateFields ub = true)
    (hnc : updateTitleConflict ub id sys.store = false) :
    ((createEntity { env with storeFail := some e } b sys).1 =
      (if e = .uniqueViolation then .conflict else .serverError)) ∧
    ((createEntity { env with storeFail := some e } b sys).2.2 = [.dbWrite]) ∧
    ((updateEntity { env with storeFail := some e } id ub sys).1 =
      (if e = .uniqueViolation then .conflict else .serverError)) ∧
    ((updateEntity { env with storeFail := some e } id ub sys).2.2 = [.dbRead]) ∧
    ((deleteEntity { env with storeFail := some e } id sys).1 = .serverError) ∧
    ((deleteEntity { env with storeFail := some e } id sys).2.2 = [.dbRead]) ∧
    ((createEntity { env with storeFail := none } b sys).1.isCreated = true) ∧
    ((updateEntity { env with storeFail := none } id ub sys).1.isOk = true) ∧
    ((deleteEntity { env with storeFail := none } id sys).1.isDeleted = true) := by
  obtain ⟨g0, hg0⟩ := Option.isSome_iff_exists.mp hex
  cases e <;>
    simp [createEntity, updateEntity, deleteEntity, hv, hfresh, hg0, huf, hnc,
      CreateRes.isCreated, UpdateRes.isOk, DeleteRes.isDeleted]

/-- C7, witness: concrete runs with a degraded cache and Solr — the store
failure yields an error with no invalidation or reindex attempt, and the
working store yields success despite both side-effect backends failing. -/
theorem write_failure_semantics_witness :
    ((createEntity { envDegraded with storeFail := some .other }
        bodyValid sysMissC1).1 = .serverError) ∧
    ((createEntity { envDegraded with storeFail := some .other }
        bodyValid sysMissC1).2.2 = [.dbWrite]) ∧
    ((deleteEntity { envDegraded with storeFail := some .other } 5 sysMissC1).2.2 =
      [.dbRead]) ∧
    ((createEntity { envDegraded with storeFail := none }
        bodyValid sysMissC1).1.isCreated = true) ∧
    ((updateEntity { envDegraded with storeFail := none }
        5 bodyPrice20 sysMissC1).1.isOk = true) ∧
    ((deleteEntity { envDegraded with storeFail := none } 5 sysMissC1).1.isDeleted =
      true) :=
  have h := write_failure_semantics envDegraded .other bodyValid bodyPrice20 5
    sysMissC1 (by decide) (by decide) (by decide) (by decide) (by decide)
  ⟨h.1, h.2.1, h.2.2.2.2.2.1, h.2.2.2.2.2.2.1, h.2.2.2.2.2.2.2.1, h.2.2.2.2.2.2.2.2⟩

/-! C8. -/

/-- C8: degraded-cache correctness.  With every Redis call failing, `getCache`
returns absent (a miss, not an error); the list read returns exactly the
page computed from the Primary Store alone and writes nothing to the cache;
the single-entity read is unaffected by the cache flag; the search read
returns exactly the result computed from the Search Index alone and writes
nothing to the cache; and each write operation returns the same result as
with a working cache — cache failures never fail a request. -/
theorem degraded_cache_correct (sf : Option StoreErr) (sv : Bool)
    (ssel : SolrReq → Option SolrResp) (limit offset id : Nat) (key : String)
    (sq : SearchQ) (b ub : GameBody) (sys : Sys) :
    getCache ⟨sf, true, sv, ssel⟩ key sys.cache = none ∧
    (listEntities ⟨none, true, sv, ssel⟩ limit offset sys).1 =
      some (listFromStore sys.store limit offset) ∧
    (listEntities ⟨sf, true, sv, ssel⟩ limit offset sys).2.1.cache = sys.cache ∧
    (getEntity ⟨sf, true, sv, ssel⟩ id sys).1 =
      (getEntity ⟨sf, false, sv, ssel⟩ id sys).1 ∧
    (searchEntities ⟨none, true, sv, ssel⟩ sq sys).1 = searchFromIndex ssel sq ∧
    (searchEntities ⟨sf, true, sv, ssel⟩ sq sys).2.1.cache = sys.cache ∧
    ((createEntity ⟨sf, true, sv, ssel⟩ b sys).1 =
      (createEntity ⟨sf, false, sv, ssel⟩ b sys).1) ∧
    ((updateEntity ⟨sf, true, sv, ssel⟩ id ub sys).1 =
      (updateEntity ⟨sf, false, sv, ssel⟩ id ub sys).1) ∧
    ((deleteEntity ⟨sf, true, sv, ssel⟩ id sys).1 =
      (deleteEntity ⟨sf, false, sv, ssel⟩ id sys).1) := by
  refine ⟨rfl, ?_, ?_, ?_, ?_, ?_, ?_, ?_, ?_⟩
  · simp [listEntities, getCache, setCache]
  · cases sf <;> simp [listEntities, getCache, setCache]
  · rfl
  · simp [searchEntities, getCache, setCache, searchFromIndex]
    cases ssel (buildSolrReq sq) <;> simp
  · cases hs : ssel (buildSolrReq sq) <;>
      simp [searchEntities, getCache, setCache, hs]
  · cases sf with
    | some e => cases e <;> cases hvc : createValidationError b <;>
        simp [createEntity, hvc]
    | none =>
      cases hvc : createValidationError b with
      | some m => simp [createEntity, hvc]
      | none =>
        by_cases hany : sys.store.any (fun g => g.title == b.title.getD ("")) = true
        · simp [createEntity, hvc, hany]
        · have hany2 : sys.store.any (fun g => g.title == b.title.getD ("")) = false := by
            simpa using hany
          simp [createEntity, hvc, hany2]
  · cases sf with
    | some e => cases e <;> simp [updateEntity]
    | none =>
      cases hf : sys.store.find? (fun g => g.id == id) with
      | none => simp [updateEntity, hf]
      | some g0 =>
        cases huf : hasUpdateFields ub <;>
          cases hnc : updateTitleConflict ub id sys.store <;>
          simp [updateEntity, hf, huf, hnc]
  · cases sf with
    | some e => cases e <;> simp [deleteEntity]
    | none =>
      cases hf : sys.store.find? (fun g => g.id == id) <;>
        simp [deleteEntity, hf]

/-! C2. -/

theorem filter_filter_bool {α : Type} (p q : α → Bool) (l : List α) :
    (l.filter p).filter q = l.filter (fun a => p a && q a) := by
  induction l with
  | nil => rfl
  | cons x xs ih => cases hp : p x <;> cases hq : q x <;> simp [hp, hq, ih]

theorem invalidate_wpats_eq_purged (env : Env) (hc : env.cacheFail = false)
    (cache : List (String × Resp)) :
    invalidateCache env wInvalPats cache = purged cache := by
  simp only [invalidateCache, hc, wInvalPats, Bool.false_eq_true, if_false,
    List.foldl_cons, List.foldl_nil]
  rw [filter_filter_bool]
  apply List.filter_congr
  intro kv _
  cases h1 : matchesPat ("games:list:*") kv.1 <;>
    cases h2 : matchesPat ("games:search:*") kv.1 <;> simp [purged, h1, h2]

/-- C2, counterexample: a successful update of game 5 leaves both per-entity
cache keys (`entity:5` in the spec's naming and `games:5` in the service's
key namespace) in place while purging the list key, so update does not
additionally purge the specific entity key the claim requires. -/
theorem update_does_not_purge_entity_key :
    (updateEntity envOk 5 bodyPrice20 sysEntKeys).1.isOk = true ∧
    (cacheLookup (updateEntity envOk 5 bodyPrice20 sysEntKeys).2.1.cache
      ("entity:5")).isSome = true ∧
    (cacheLookup (updateEntity envOk 5 bodyPrice20 sysEntKeys).2.1.cache
      ("games:5")).isSome = true ∧
    cacheLookup (updateEntity envOk 5 bodyPrice20 sysEntKeys).2.1.cache
      ("games:list:10:0") = none := by
  refine ⟨by decide, by decide, by decide, by decide⟩

/-- C2 (amended): every write purges exactly the `games:list:*` and
`games:search:*` pattern pair.  With a working cache backend, any
`invalidateCache` call issued by create, update or delete carries exactly
this pattern pair, and on success the resulting cache is precisely the old
cache minus every key matching one of the two patterns — no `entity:{id}`
key is purged by update or delete (none is ever written, since single-entity
reads are not cached). -/
theorem writes_purge_exactly_list_and_search (env : Env) (b : GameBody)
    (id : Nat) (sys : Sys) (hc : env.cacheFail = false) :
    (∀ ps, Eff.cacheInval ps ∈ (createEntity env b sys).2.2 → ps = wInvalPats) ∧
    (∀ ps, Eff.cacheInval ps ∈ (updateEntity env id b sys).2.2 → ps = wInvalPats) ∧
    (∀ ps, Eff.cacheInval ps ∈ (deleteEntity env id sys).2.2 → ps = wInvalPats) ∧
    ((createEntity env b sys).1.isCreated = true →
      (createEntity env b sys).2.1.cache = purged sys.cache) ∧
    ((updateEntity env id b sys).1.isOk = true →
      (updateEntity env id b sys).2.1.cache = purged sys.cache) ∧
    ((deleteEntity env id sys).1.isDeleted = true →
      (deleteEntity env id sys).2.1.cache = purged sys.cache) := by
  have hpg : ∀ c, invalidateCache env wInvalPats c = purged c :=
    invalidate_wpats_eq_purged env hc
  refine ⟨?_, ?_, ?_, ?_, ?_, ?_⟩
  · intro ps hps
    cases hvc : createValidationError b with
    | some m => simp [createEntity, hvc] at hps
    | none =>
      cases hsf : env.storeFail with
      | some e => cases e <;> simp [createEntity, hvc, hsf] at hps
      | none =>
        by_cases hany : sys.store.any (fun g => g.title == b.title.getD ("")) = true
        · simp [createEntity, hvc, hsf, hany] at hps
        · have hany2 : sys.store.any (fun g => g.title == b.title.getD ("")) = false := by
            simpa using hany
          simp [createEntity, hvc, hsf, hany2] at hps
          exact hps
  · intro ps hps
    cases hsf : env.storeFail with
    | some e => cases e <;> simp [updateEntity, hsf] at hps
    | none =>
      cases hf : sys.store.find? (fun g => g.id == id) with
      | none => simp [updateEntity, hsf, hf] at hps
      | some g0 =>
        cases huf : hasUpdateFields b with
        | false => simp [updateEntity, hsf, hf, huf] at hps
        | true =>
          cases hnc : updateTitleConflict b id sys.store with
          | true => simp [updateEntity, hsf, hf, huf, hnc] at hps
          | false =>
            simp [updateEntity, hsf, hf, huf, hnc] at hps
            exact hps
  · intro ps hps
    cases hsf : env.storeFail with
    | some e => cases e <;> simp [deleteEntity, hsf] at hps
    | none =>
      cases hf : sys.store.find? (fun g => g.id == id) with
      | none => simp [deleteEntity, hsf, hf] at hps
      | some g0 =>
        simp [deleteEntity, hsf, hf] at hps
        exact hps
  · intro hok
    cases hvc : createValidationError b with
    | some m => simp [createEntity, hvc, CreateRes.isCreated] at hok
    | none =>
      cases hsf : env.storeFail with
      | some e => cases e <;> simp [createEntity, hvc, hsf, CreateRes.isCreated] at hok
      | none =>
        by_cases hany : sys.store.any (fun g => g.title == b.title.getD ("")) = true
        · simp [createEntity, hvc, hsf, hany, CreateRes.isCreated] at hok
        · have hany2 : sys.store.any (fun g => g.title == b.title.getD ("")) = false := by
            simpa using hany
          simp [createEntity, hvc, hsf, hany2, hpg]
  · intro hok
    cases hsf : env.storeFail with
    | some e => cases e <;> simp [updateEntity, hsf, UpdateRes.isOk] at hok
    | none =>
      cases hf : sys.store.find? (fun g => g.id == id) with
      | none => simp [updateEntity, hsf, hf, UpdateRes.isOk] at hok
      | some g0 =>
        cases huf : hasUpdateFields b with
        | false => simp [updateEntity, hsf, hf, huf, UpdateRes.isOk] at hok
        | true =>
          cases hnc : updateTitleConflict b id sys.store with
          | true => simp [updateEntity, hsf, hf, huf, hnc, UpdateRes.isOk] at hok
          | false => simp [updateEntity, hsf, hf, huf, hnc, hpg]
  · intro hok
    cases hsf : env.storeFail with
    | some e => cases e <;> simp [deleteEntity, hsf, DeleteRes.isDeleted] at hok
    | none =>
      cases hf : sys.store.find? (fun g => g.id == id) with
      | none => simp [deleteEntity, hsf, hf, DeleteRes.isDeleted] at hok
      | some g0 => simp [deleteEntity, hsf, hf, hpg]

/-- C2, witness: a concrete successful update run with a working cache,
instantiating the amended purge theorem. -/
theorem writes_purge_exactly_witness :
    (∀ ps, Eff.cacheInval ps ∈ (updateEntity envOk 5 bodyPrice20 sysEntKeys).2.2 →
      ps = wInvalPats) ∧
    ((updateEntity envOk 5 bodyPrice20 sysEntKeys).1.isOk = true →
      (updateEntity envOk 5 bodyPrice20 sysEntKeys).2.1.cache =
        purged sysEntKeys.cache) :=
  have h := writes_purge_exactly_list_and_search envOk bodyPrice20 5 sysEntKeys rfl
  ⟨h.2.1, h.2.2.2.2.1⟩

/-! C5. -/

theorem noColon_not_mem (s : String) (h : noColon s = true) :
    ':' ∈ s.data → False := by
  intro hm
  unfold noColon at h
  have h2 := List.all_eq_true.mp h ':' hm
  simp at h2

theorem chopAux : ∀ (a b r1 r2 : List Char), (':' ∈ a → False) →
    (':' ∈ b → False) → a ++ ':' :: r1 = b ++ ':' :: r2 → a = b ∧ r1 = r2 := by
  intro a
  induction a with
  | nil =>
    intro b r1 r2 _ hb h
    cases b with
    | nil =>
      simp only [List.nil_append, List.cons.injEq] at h
      exact ⟨rfl, h.2⟩
    | cons c bs =>
      simp only [List.nil_append, List.cons_append, List.cons.injEq] at h
      exact absurd (by rw [h.1]; exact List.mem_cons_self c bs) hb
  | cons c as ih =>
    intro b r1 r2 ha hb h
    cases b with
    | nil =>
      simp only [List.cons_append, List.nil_append, List.cons.injEq] at h
      exact absurd (by rw [← h.1]; exact List.mem_cons_self c as) ha
    | cons d bs =>
      simp only [List.cons_append, List.cons.injEq] at h
      obtain ⟨hcd, h2⟩ := h
      obtain ⟨hab, hr⟩ := ih bs r1 r2 (fun hm => ha (List.mem_cons_of_mem _ hm))
        (fun hm => hb (List.mem_cons_of_mem _ hm)) h2
      exact ⟨by rw [hcd, hab], hr⟩

theorem getD_good_inj (x y : Option String) (d : String)
    (hx : goodD x d = true) (hy : goodD y d = true)
    (h : x.getD d = y.getD d) : x = y := by
  cases x with
  | none =>
    cases y with
    | none => rfl
    | some s =>
      exfalso
      simp only [goodD, Bool.and_eq_true] at hy
      simp only [Option.getD_none, Option.getD_some] at h
      have hs : (s == d) = false := by
        cases hsd : (s == d) <;> simp [hsd] at hy ⊢
      rw [h.symm] at hs
      simp at hs
  | some s =>
    cases y with
    | none =>
      exfalso
      simp only [goodD, Bool.and_eq_true] at hx
      simp only [Option.getD_none, Option.getD_some] at h
      have hs : (s == d) = false := by
        cases hsd : (s == d) <;> simp [hsd] at hx ⊢
      rw [h] at hs
      simp at hs
    | some t =>
      simp only [Option.getD_some] at h
      rw [h]

theorem jsOr_good_inj (x y : Option String) (d : String)
    (hx : goodJ x d = true) (hy : goodJ y d = true)
    (h : jsOrS x d = jsOrS y d) : x = y := by
  cases x with
  | none =>
    cases y with
    | none => rfl
    | some s =>
      exfalso
      simp only [goodJ, Bool.and_eq_true] at hy
      have hse : (s == "") = false := by
        cases hse : (s == "") <;> simp [hse] at hy ⊢
      have hsd : (s == d) = false := by
        cases hsd : (s == d) <;> simp [hsd] at hy ⊢
      simp only [jsOrS, hse, Bool.false_eq_true, if_false] at h
      rw [h.symm] at hsd
      simp at hsd
  | some s =>
    cases y with
    | none =>
      exfalso
      simp only [goodJ, Bool.and_eq_true] at hx
      have hse : (s == "") = false := by
        cases hse : (s == "") <;> simp [hse] at hx ⊢
      have hsd : (s == d) = false := by
        cases hsd : (s == d) <;> simp [hsd] at hx ⊢
      simp only [jsOrS, hse, Bool.false_eq_true, if_false] at h
      rw [h] at hsd
      simp at hsd
    | some t =>
      simp only [goodJ, Bool.and_eq_true] at hx hy
      have hse : (s == "") = false := by
        cases hse : (s == "") <;> simp [hse] at hx ⊢
      have hte : (t == "") = false := by
        cases hte : (t == "") <;> simp [hte] at hy ⊢
      simp only [jsOrS, hse, hte, Bool.false_eq_true, if_false] at h
      rw [h]

theorem goodD_resolved_noColon (x : Option String) (d : String)
    (hx : goodD x d = true) (hd : noColon d = true) :
    noColon (x.getD d) = true := by
  cases x with
  | none => simpa using hd
  | some s =>
    simp only [goodD, Bool.and_eq_true] at hx
    simpa using hx.2

theorem goodJ_resolved_noColon (x : Option String) (d : String)
    (hx : goodJ x d = true) (hd : noColon d = true) :
    noColon (jsOrS x d) = true := by
  cases x with
  | none => simpa [jsOrS] using hd
  | some s =>
    simp only [goodJ, Bool.and_eq_true] at hx
    have hse : (s == "") = false := by
      cases hse : (s == "") <;> simp [hse] at hx ⊢
    simp only [jsOrS, hse, Bool.false_eq_true, if_false]
    exact hx.2

/-- C5, counterexample: the search cache-key function is not injective on
query shapes.  The shape with every parameter absent and the shape whose
genre is explicitly `all` are distinct, yet build the identical cache key,
so the two filter combinations collide on one cache entry. -/
theorem search_key_collision :
    searchCacheKey sqAbsent = searchCacheKey sqGenreAll ∧
    sqAbsent ≠ sqGenreAll := by
  refine ⟨rfl, by decide⟩

/-- C5 (amended): the search cache key is injective on canonical query
shapes.  An absent parameter collides with its own sentinel (`*` for `q`,
`all`/`0`/`inf`/`default` for the filters and sort, `10`/`0` for the page),
and a value containing `:` can shift field boundaries; restricted to shapes
whose supplied values are colon-free, nonempty and distinct from those
sentinels, two distinct (query text, genre, platform, priceMin, priceMax,
ratingMin, sort, limit, offset) combinations always build distinct cache
keys. -/
theorem search_key_injective_on_canonical (a b : SearchQ)
    (ha : searchKeyCanonical a = true) (hb : searchKeyCanonical b = true)
    (h : searchCacheKey a = searchCacheKey b) : a = b := by
  obtain ⟨ha1, ha2, ha3, ha4, ha5, ha6, ha7, ha8, ha9⟩ :
      goodD a.q ("*") = true ∧ goodJ a.genre ("all") = true ∧
      goodJ a.platform ("all") = true ∧ goodJ a.priceMin ("0") = true ∧
      goodJ a.priceMax ("inf") = true ∧ goodJ a.ratingMin ("0") = true ∧
      goodJ a.sort ("default") = true ∧ goodD a.limit ("10") = true ∧
      goodD a.offset ("0") = true := by
    simpa [searchKeyCanonical, Bool.and_eq_true, and_assoc] using ha
  obtain ⟨hb1, hb2, hb3, hb4, hb5, hb6, hb7, hb8, hb9⟩ :
      goodD b.q ("*") = true ∧ goodJ b.genre ("all") = true ∧
      goodJ b.platform ("all") = true ∧ goodJ b.priceMin ("0") = true ∧
      goodJ b.priceMax ("inf") = true ∧ goodJ b.ratingMin ("0") = true ∧
      goodJ b.sort ("default") = true ∧ goodD b.limit ("10") = true ∧
      goodD b.offset ("0") = true := by
    simpa [searchKeyCanonical, Bool.and_eq_true, and_assoc] using hb
  have na1 := goodD_resolved_noColon _ _ ha1 (by decide)
  have na2 := goodJ_resolved_noColon _ _ ha2 (by decide)
  have na3 := goodJ_resolved_noColon _ _ ha3 (by decide)
  have na4 := goodJ_resolved_noColon _ _ ha4 (by decide)
  have na5 := goodJ_resolved_noColon _ _ ha5 (by decide)
  have na6 := goodJ_resolved_noColon _ _ ha6 (by decide)
  have na7 := goodJ_resolved_noColon _ _ ha7 (by decide)
  have na8 := goodD_resolved_noColon _ _ ha8 (by decide)
  have nb1 := goodD_resolved_noColon _ _ hb1 (by decide)
  have nb2 := goodJ_resolved_noColon _ _ hb2 (by decide)
  have nb3 := goodJ_resolved_noColon _ _ hb3 (by decide)
  have nb4 := goodJ_resolved_noColon _ _ hb4 (by decide)
  have nb5 := goodJ_resolved_noColon _ _ hb5 (by decide)
  have nb6 := goodJ_resolved_noColon _ _ hb6 (by decide)
  have nb7 := goodJ_resolved_noColon _ _ hb7 (by decide)
  have nb8 := goodD_resolved_noColon _ _ hb8 (by decide)
  have hd := congrArg String.data h
  simp only [searchCacheKey, String.data_append, List.append_assoc] at hd
  have hcol : (":" : String).data = [':'] := rfl
  simp only [hcol, List.singleton_append] at hd
  have hd2 := List.append_cancel_left hd
  obtain ⟨e1, hd3⟩ :=
    chopAux _ _ _ _ (noColon_not_mem _ na1) (noColon_not_mem _ nb1) hd2
  obtain ⟨e2, hd4⟩ :=
    chopAux _ _ _ _ (noColon_not_mem _ na2) (noColon_not_mem _ nb2) hd3
  obtain ⟨e3, hd5⟩ :=
    chopAux _ _ _ _ (noColon_not_mem _ na3) (noColon_not_mem _ nb3) hd4
  obtain ⟨e4, hd6⟩ :=
    chopAux _ _ _ _ (noColon_not_mem _ na4) (noColon_not_mem _ nb4) hd5
  obtain ⟨e5, hd7⟩ :=
    chopAux _ _ _ _ (noColon_not_mem _ na5) (noColon_not_mem _ nb5) hd6
  obtain ⟨e6, hd8⟩ :=
    chopAux _ _ _ _ (noColon_not_mem _ na6) (noColon_not_mem _ nb6) hd7
  obtain ⟨e7, hd9⟩ :=
    chopAux _ _ _ _ (noColon_not_mem _ na7) (noColon_not_mem _ nb7) hd8
  obtain ⟨e8, hd10⟩ :=
    chopAux _ _ _ _ (noColon_not_mem _ na8) (noColon_not_mem _ nb8) hd9
  have f1 := getD_good_inj _ _ _ ha1 hb1 (String.ext e1)
  have f2 := jsOr_good_inj _ _ _ ha2 hb2 (String.ext e2)
  have f3 := jsOr_good_inj _ _ _ ha3 hb3 (String.ext e3)
  have f4 := jsOr_good_inj _ _ _ ha4 hb4 (String.ext e4)
  have f5 := jsOr_good_inj _ _ _ ha5 hb5 (String.ext e5)
  have f6 := jsOr_good_inj _ _ _ ha6 hb6 (String.ext e6)
  have f7 := jsOr_good_inj _ _ _ ha7 hb7 (String.ext e7)
  have f8 := getD_good_inj _ _ _ ha8 hb8 (String.ext e8)
  have f9 := getD_good_inj _ _ _ ha9 hb9 (String.ext hd10)
  cases a
  cases b
  simp only [SearchQ.mk.injEq]
  exact ⟨f1, f2, f3, f4, f5, f6, f7, f8, f9⟩

/-- C5, witness: the canonical-shape injectivity theorem instantiated at a
concrete fully supplied, colon-free, sentinel-free query shape. -/
theorem search_key_injective_witness : sqCanon = sqCanon :=
  search_key_injective_on_canonical sqCanon sqCanon (by decide) (by decide) rfl
